import Mathlib

/-
Shallow embedding of `src/carla_ros_bridge/src/carla_ros_bridge/ego_vehicle.py`
(class `EgoVehicle`): the CARLA-to-ROS ego-vehicle relay.

The embedding is parametric in the scalar type `α` (the Python code computes on
floats; the claims under verification concern exact algebraic relationships, so
theorems instantiate `α` at `ℚ` where no transcendental function is involved and
at `ℝ` where `sin`, `cos`, `sqrt` or `π` appear).  Transcendental functions used
by the code (`numpy.sin`, `math.sqrt`, …) are passed as function parameters so
that the definitions stay computable; theorems instantiate them with `Real.sin`,
`Real.sqrt`, etc.
-/

namespace EgoVehicleRelay

/-- Fields of a `carla_msgs.msg.CarlaEgoVehicleControl` ROS message (the header
is irrelevant to every claim and is omitted). `gear` is an `int32`; the claims
do not involve overflow, so it is modelled as `ℤ`. -/
structure CarlaEgoVehicleControl (α : Type) where
  throttle : α
  steer : α
  brake : α
  hand_brake : Bool
  reverse : Bool
  gear : ℤ
  manual_gear_shift : Bool
deriving DecidableEq, Repr

/-- Fields of a `carla.VehicleControl` command object as populated by
`EgoVehicle.control_command_updated` (ego_vehicle.py lines 320-327). -/
structure VehicleControl (α : Type) where
  throttle : α
  steer : α
  brake : α
  hand_brake : Bool
  reverse : Bool
  gear : ℤ
  manual_gear_shift : Bool
deriving DecidableEq, Repr

/-- The field-by-field copy from the ROS message into the `carla.VehicleControl`
object performed in `control_command_updated` (lines 320-327, in source order:
hand_brake, brake, steer, throttle, reverse, manual_gear_shift, gear). -/
def toVehicleControl {α : Type} (ros_vehicle_control : CarlaEgoVehicleControl α) :
    VehicleControl α :=
  { hand_brake := ros_vehicle_control.hand_brake
    brake := ros_vehicle_control.brake
    steer := ros_vehicle_control.steer
    throttle := ros_vehicle_control.throttle
    reverse := ros_vehicle_control.reverse
    manual_gear_shift := ros_vehicle_control.manual_gear_shift
    gear := ros_vehicle_control.gear }

/-- Observable side effects of the control-command handler: a call to
`carla_actor.apply_control` (line 328) or an invocation of the caller-supplied
`vehicle_control_applied_callback` with the vehicle id (line 329). -/
inductive RelayOutput (α : Type) where
  | applyControl (c : VehicleControl α)
  | controlApplied (id : ℤ)
deriving DecidableEq, Repr

/-- `EgoVehicle.control_command_updated` (ego_vehicle.py lines 304-329): when
`manual_override == self.vehicle_control_override`, the ROS command is copied
into a `carla.VehicleControl`, applied to the actor, and the applied-callback
is invoked with `self.get_id()`; otherwise nothing happens.  The primary
channel subscribes with `manual_override=False` (line 79) and the manual
channel with `manual_override=True` (line 90). -/
def control_command_updated {α : Type} (vehicle_control_override : Bool)
    (vehicle_id : ℤ) (ros_vehicle_control : CarlaEgoVehicleControl α)
    (manual_override : Bool) : List (RelayOutput α) :=
  if manual_override = vehicle_control_override then
    [RelayOutput.applyControl (toVehicleControl ros_vehicle_control),
     RelayOutput.controlApplied vehicle_id]
  else
    []

/-- Whether an output trace of the handler contains a forward to the simulator
(an `apply_control` call). -/
def isForwarded {α : Type} (outs : List (RelayOutput α)) : Bool :=
  outs.any fun o =>
    match o with
    | RelayOutput.applyControl _ => true
    | RelayOutput.controlApplied _ => false

/-- Number of invocations of the control-applied callback in an output trace. -/
def appliedCallbackCount {α : Type} (outs : List (RelayOutput α)) : ℕ :=
  (outs.filter fun o =>
    match o with
    | RelayOutput.applyControl _ => false
    | RelayOutput.controlApplied _ => true).length

/-- The mutable relay state set up in `EgoVehicle.__init__`:
`self.vehicle_info_published = False` (line 59) and
`self.vehicle_control_override = False` (line 60). -/
structure RelayState where
  vehicle_info_published : Bool
  vehicle_control_override : Bool
deriving DecidableEq, Repr

/-- The state established by the constructor (lines 59-60). -/
def initialRelayState : RelayState :=
  { vehicle_info_published := false, vehicle_control_override := false }

/-- `EgoVehicle.control_command_override` (lines 298-302): unconditionally
stores the received boolean into `self.vehicle_control_override`. -/
def control_command_override (s : RelayState) (enable : Bool) : RelayState :=
  { s with vehicle_control_override := enable }

/-- Inbound events relevant to command routing: an override-enable message
(`/vehicle_control_manual_override`) or a control command on one of the two
channels, tagged by that channel's `manual_override` flag. -/
inductive RelayEvent (α : Type) where
  | overrideMsg (enable : Bool)
  | controlMsg (ros : CarlaEgoVehicleControl α) (manual_override : Bool)
deriving DecidableEq, Repr

/-- One synchronous callback invocation of the relay: the override handler
mutates state and emits nothing; the control handler leaves state untouched
and emits the outputs of `control_command_updated`, read against the current
override flag. -/
def stepRelay {α : Type} (vehicle_id : ℤ) (s : RelayState) :
    RelayEvent α → RelayState × List (RelayOutput α)
  | RelayEvent.overrideMsg b => (control_command_override s b, [])
  | RelayEvent.controlMsg ros m =>
      (s, control_command_updated s.vehicle_control_override vehicle_id ros m)

/-- Sequential processing of a list of inbound events (the runtime delivers
callbacks serially, per spec section 5). -/
def runRelay {α : Type} (vehicle_id : ℤ) (s : RelayState) :
    List (RelayEvent α) → RelayState × List (RelayOutput α)
  | [] => (s, [])
  | e :: es =>
      let so := stepRelay vehicle_id s e
      let rest := runRelay vehicle_id so.1 es
      (rest.1, so.2 ++ rest.2)

/-- The value the override flag should hold after a list of events: the value
carried by the last override-enable message, or the starting value if none
occurred. -/
def lastOverride (init : Bool) : List (RelayEvent ℚ) → Bool
  | [] => init
  | RelayEvent.overrideMsg b :: es => lastOverride b es
  | RelayEvent.controlMsg _ _ :: es => lastOverride init es

/-- Effect of one `send_vehicle_msgs` call on the `vehicle_info_published`
flag (lines 211-213): returns the new flag value and whether the static
vehicle-info descriptor was published during this call. -/
def sendVehicleMsgsInfoStep (vehicle_info_published : Bool) : Bool × Bool :=
  if vehicle_info_published then (vehicle_info_published, false) else (true, true)

/-- The `vehicle_info_published` flag after `n` calls to `send_vehicle_msgs`. -/
def infoFlagAfter (p : Bool) : ℕ → Bool
  | 0 => p
  | n + 1 => infoFlagAfter (sendVehicleMsgsInfoStep p).1 n

/-- Number of times the static vehicle-info descriptor is published across `n`
consecutive calls to `send_vehicle_msgs` starting from flag value `p`. -/
def infoPublishCount (p : Bool) : ℕ → ℕ
  | 0 => 0
  | n + 1 =>
      (if (sendVehicleMsgsInfoStep p).2 then 1 else 0) +
        infoPublishCount (sendVehicleMsgsInfoStep p).1 n

/-- `EgoVehicle.get_quaternion_from_euler` (lines 134-159), the textbook
Euler-to-quaternion formula, returned as `(qx, qy, qz, qw)`.  `numpy.sin` and
`numpy.cos` are passed as the function parameters `sin` and `cos`. -/
def get_quaternion_from_euler {α : Type} [Field α] (sin cos : α → α)
    (roll pitch yaw : α) : α × α × α × α :=
  (sin (roll / 2) * cos (pitch / 2) * cos (yaw / 2) -
      cos (roll / 2) * sin (pitch / 2) * sin (yaw / 2),
   cos (roll / 2) * sin (pitch / 2) * cos (yaw / 2) +
      sin (roll / 2) * cos (pitch / 2) * sin (yaw / 2),
   cos (roll / 2) * cos (pitch / 2) * sin (yaw / 2) -
      sin (roll / 2) * sin (pitch / 2) * cos (yaw / 2),
   cos (roll / 2) * cos (pitch / 2) * cos (yaw / 2) +
      sin (roll / 2) * sin (pitch / 2) * sin (yaw / 2))

/-- A three-component vector (carla `Vector3D` / ROS `Vector3` / `Point`). -/
structure Vector3 (α : Type) where
  x : α
  y : α
  z : α
deriving DecidableEq, Repr

/-- A homogeneous 4-vector, as built at lines 232-239. -/
structure Vec4 (α : Type) where
  a0 : α
  a1 : α
  a2 : α
  a3 : α
deriving DecidableEq, Repr

/-- A 4x4 matrix given by its rows (the `numpy` array of
`carla.Transform.get_inverse_matrix()`, line 229-231). -/
structure Mat4 (α : Type) where
  r0 : Vec4 α
  r1 : Vec4 α
  r2 : Vec4 α
  r3 : Vec4 α
deriving DecidableEq, Repr

/-- Dot product of two 4-vectors. -/
def dot4 {α : Type} [Field α] (r v : Vec4 α) : α :=
  r.a0 * v.a0 + r.a1 * v.a1 + r.a2 * v.a2 + r.a3 * v.a3

/-- `numpy.matmul` of a 4x4 matrix with a homogeneous 4-vector (line 240). -/
def matmul4 {α : Type} [Field α] (m : Mat4 α) (v : Vec4 α) : Vec4 α :=
  ⟨dot4 m.r0 v, dot4 m.r1 v, dot4 m.r2 v, dot4 m.r3 v⟩

/-- The 4x4 identity matrix: the inverse matrix the simulator reports when the
vehicle's world transform is the identity. -/
def identityMat4 {α : Type} [Field α] : Mat4 α :=
  ⟨⟨1, 0, 0, 0⟩, ⟨0, 1, 0, 0⟩, ⟨0, 0, 1, 0⟩, ⟨0, 0, 0, 1⟩⟩

/-- Per-wheel data of `carla.VehiclePhysicsControl.wheels`; `position` is the
wheel's map-frame position in centimeters, as reported by the simulator. -/
structure WheelPhysicsControl (α : Type) where
  tire_friction : α
  damping_rate : α
  max_steer_angle : α
  radius : α
  max_brake_torque : α
  max_handbrake_torque : α
  position : Vector3 α
deriving DecidableEq, Repr

/-- Fields of a `carla_msgs.msg.CarlaEgoVehicleInfoWheel` outbound message. -/
structure CarlaEgoVehicleInfoWheel (α : Type) where
  tire_friction : α
  damping_rate : α
  max_steer_angle : α
  radius : α
  max_brake_torque : α
  max_handbrake_torque : α
  position : Vector3 α
deriving DecidableEq, Repr

/-- The per-wheel block of `send_vehicle_msgs` (lines 220-244): scalar fields
copied, `max_steer_angle` converted by `math.radians` (i.e. multiplied by
`pi / 180`, with `pi` a parameter), and the wheel's map position divided by
100, multiplied by the inverse world-transform matrix `inv_T`, with the Y
component negated after the transform (line 242). -/
def wheelInfoFromPhysics {α : Type} [Field α] (pi : α) (inv_T : Mat4 α)
    (wheel : WheelPhysicsControl α) : CarlaEgoVehicleInfoWheel α :=
  let wheel_pos_in_map : Vec4 α :=
    ⟨wheel.position.x / 100, wheel.position.y / 100, wheel.position.z / 100, 1⟩
  let wheel_pos_in_ego_vehicle := matmul4 inv_T wheel_pos_in_map
  { tire_friction := wheel.tire_friction
    damping_rate := wheel.damping_rate
    max_steer_angle := wheel.max_steer_angle * pi / 180
    radius := wheel.radius
    max_brake_torque := wheel.max_brake_torque
    max_handbrake_torque := wheel.max_handbrake_torque
    position := { x := wheel_pos_in_ego_vehicle.a0,
                  y := -wheel_pos_in_ego_vehicle.a1,
                  z := wheel_pos_in_ego_vehicle.a2 } }

/-- A ROS quaternion (`geometry_msgs` orientation). -/
structure RosQuaternion (α : Type) where
  x : α
  y : α
  z : α
  w : α
deriving DecidableEq, Repr

/-- A ROS pose: position plus orientation. -/
structure RosPose (α : Type) where
  position : Vector3 α
  orientation : RosQuaternion α
deriving DecidableEq, Repr

/-- Snapshot of the actor state read by one `send_vehicle_msgs` call.
`ros_pose` is the value of `self.get_current_ros_pose()` (a base-class
conversion outside this file, treated as an input); `accel_linear` is
`self.get_current_ros_accel().linear`; `control` is
`self.carla_actor.get_control()`; `transform_location` is
`self.carla_actor.get_transform().location`; `velocity` is
`self.carla_actor.get_velocity()`. -/
structure EgoSnapshot (α : Type) where
  velocity : Vector3 α
  accel_linear : Vector3 α
  ros_pose : RosPose α
  control : VehicleControl α
  transform_location : Vector3 α
deriving DecidableEq, Repr

/-- `EgoVehicle.get_vector_length_squared` (lines 344-357). -/
def get_vector_length_squared {α : Type} [Field α] (carla_vector : Vector3 α) :
    α :=
  carla_vector.x * carla_vector.x + carla_vector.y * carla_vector.y +
    carla_vector.z * carla_vector.z

/-- `EgoVehicle.get_vehicle_speed_squared` (lines 359-368): squared length of
the actor's velocity vector. -/
def get_vehicle_speed_squared {α : Type} [Field α] (s : EgoSnapshot α) : α :=
  get_vector_length_squared s.velocity

/-- `EgoVehicle.get_vehicle_speed_abs` (lines 370-380): `math.sqrt` of the
squared speed; `sqrt` is passed as a function parameter. -/
def get_vehicle_speed_abs {α : Type} [Field α] (sqrt : α → α)
    (s : EgoSnapshot α) : α :=
  sqrt (get_vehicle_speed_squared s)

/-- Fields of the `CarlaEgoVehicleStatus` outbound message (header omitted). -/
structure CarlaEgoVehicleStatus (α : Type) where
  velocity : α
  acceleration_linear : Vector3 α
  orientation : RosQuaternion α
  control : VehicleControl α
deriving DecidableEq, Repr

/-- The status message built at lines 167-181 of `send_vehicle_msgs`. -/
def mkVehicleStatus {α : Type} [Field α] (sqrt : α → α) (s : EgoSnapshot α) :
    CarlaEgoVehicleStatus α :=
  { velocity := get_vehicle_speed_abs sqrt s
    acceleration_linear := s.accel_linear
    orientation := s.ros_pose.orientation
    control := s.control }

/-- The `PoseStamped` pose built at lines 184-196 of `send_vehicle_msgs`: the
position coordinates are copied from `get_transform().location` and the
orientation is `get_current_ros_pose().orientation` (line 196); the
Euler-to-quaternion call on line 208 is commented out in the source. -/
def mkEgoLocation {α : Type} (s : EgoSnapshot α) : RosPose α :=
  { position := { x := s.transform_location.x,
                  y := s.transform_location.y,
                  z := s.transform_location.z }
    orientation := s.ros_pose.orientation }

/-- Fields of the `localization_msgs.msg.Canbus` outbound message (header
omitted). -/
structure CanbusMsg (α : Type) where
  steering : α
  throttle : α
  speed : α
  brake : α
  accel : α
  checksum : ℤ
deriving DecidableEq, Repr

/-- The Canbus message built at lines 198-206 of `send_vehicle_msgs`, reading
its fields from the status message constructed earlier in the same call. -/
def mkCanbus {α : Type} [Field α] (sqrt : α → α) (s : EgoSnapshot α) :
    CanbusMsg α :=
  let vehicle_status := mkVehicleStatus sqrt s
  { steering := vehicle_status.control.steer
    throttle := vehicle_status.control.throttle
    speed := vehicle_status.velocity
    brake := vehicle_status.control.brake
    accel := vehicle_status.acceleration_linear.x
    checksum := 1 }

end EgoVehicleRelay

namespace EgoVehicleRelay

theorem infoPublishCount_of_true (n : ℕ) : infoPublishCount true n = 0 := by
  induction n with
  | zero => rfl
  | succ n ih => simpa [infoPublishCount, sendVehicleMsgsInfoStep] using ih

theorem infoFlagAfter_true (n : ℕ) : infoFlagAfter true n = true := by
  induction n with
  | zero => rfl
  | succ n ih => simpa [infoFlagAfter, sendVehicleMsgsInfoStep] using ih

theorem runRelay_override_eq (vehicle_id : ℤ) (s : RelayState)
    (es : List (RelayEvent ℚ)) :
    (runRelay vehicle_id s es).1.vehicle_control_override =
      lastOverride s.vehicle_control_override es := by
  induction es generalizing s with
  | nil => rfl
  | cons e es ih =>
      cases e with
      | overrideMsg b =>
          simpa [runRelay, stepRelay, lastOverride, control_command_override]
            using ih _
      | controlMsg ros m =>
          simpa [runRelay, stepRelay, lastOverride] using ih _

/-- C1: with override=false, a manual-channel command (manual_override=true) is
never forwarded via apply_control and a primary-channel command
(manual_override=false) is always forwarded with all seven fields copied
unchanged; with override=true, the reverse holds. -/
theorem control_routing_by_override (vehicle_id : ℤ)
    (ros : CarlaEgoVehicleControl ℚ) :
    (control_command_updated false vehicle_id ros true = [] ∧
      control_command_updated false vehicle_id ros false =
        [RelayOutput.applyControl (toVehicleControl ros),
         RelayOutput.controlApplied vehicle_id]) ∧
    (control_command_updated true vehicle_id ros false = [] ∧
      control_command_updated true vehicle_id ros true =
        [RelayOutput.applyControl (toVehicleControl ros),
         RelayOutput.controlApplied vehicle_id]) ∧
    ((toVehicleControl ros).throttle = ros.throttle ∧
      (toVehicleControl ros).steer = ros.steer ∧
      (toVehicleControl ros).brake = ros.brake ∧
      (toVehicleControl ros).hand_brake = ros.hand_brake ∧
      (toVehicleControl ros).reverse = ros.reverse ∧
      (toVehicleControl ros).gear = ros.gear ∧
      (toVehicleControl ros).manual_gear_shift = ros.manual_gear_shift) := by
  refine ⟨⟨?_, ?_⟩, ⟨?_, ?_⟩, ?_, ?_, ?_, ?_, ?_, ?_, ?_⟩ <;>
    simp [control_command_updated, toVehicleControl]

/-- C2: across any positive number of `send_vehicle_msgs` calls the static
vehicle-info descriptor is published exactly once — the flag starts false at
construction, the first call publishes and sets the flag true, the flag is
never reset, and no later call publishes again. -/
theorem vehicle_info_published_exactly_once (n : ℕ) :
    infoPublishCount initialRelayState.vehicle_info_published (n + 1) = 1 ∧
    (sendVehicleMsgsInfoStep initialRelayState.vehicle_info_published).2 = true ∧
    infoFlagAfter initialRelayState.vehicle_info_published (n + 1) = true ∧
    (∀ m : ℕ,
      infoPublishCount
        (infoFlagAfter initialRelayState.vehicle_info_published 1) m = 0) := by
  refine ⟨?_, rfl, ?_, ?_⟩
  · simp [infoPublishCount, sendVehicleMsgsInfoStep, initialRelayState,
      infoPublishCount_of_true]
  · simpa [infoFlagAfter, sendVehicleMsgsInfoStep, initialRelayState]
      using infoFlagAfter_true n
  · intro m
    simpa [infoFlagAfter, sendVehicleMsgsInfoStep, initialRelayState]
      using infoPublishCount_of_true m

/-- C3: whenever a control command is forwarded to the simulator the
control-applied callback fires exactly once, with the vehicle id as its sole
argument; a command dropped because its channel's override flag does not match
the relay's override state produces no output at all, so the callback never
fires. -/
theorem applied_callback_exactly_once_per_forward (ovr m : Bool)
    (vehicle_id : ℤ) (ros : CarlaEgoVehicleControl ℚ) :
    (isForwarded (control_command_updated ovr vehicle_id ros m) = true →
      control_command_updated ovr vehicle_id ros m =
        [RelayOutput.applyControl (toVehicleControl ros),
         RelayOutput.controlApplied vehicle_id] ∧
      appliedCallbackCount (control_command_updated ovr vehicle_id ros m) = 1) ∧
    (isForwarded (control_command_updated ovr vehicle_id ros m) = false →
      control_command_updated ovr vehicle_id ros m = [] ∧
      appliedCallbackCount (control_command_updated ovr vehicle_id ros m) = 0) := by
  by_cases h : m = ovr <;>
    simp [control_command_updated, isForwarded, appliedCallbackCount, h]

/-- Witness for C3 at a concrete command: with override=false, the primary
channel (manual_override=false) fires the callback once and the manual channel
(manual_override=true) does not fire it. -/
theorem applied_callback_exactly_once_per_forward_witness :
    appliedCallbackCount
        (control_command_updated false 7
          (⟨1/2, 0, 0, false, false, 1, false⟩ : CarlaEgoVehicleControl ℚ)
          false) = 1 ∧
    appliedCallbackCount
        (control_command_updated false 7
          (⟨1/2, 0, 0, false, false, 1, false⟩ : CarlaEgoVehicleControl ℚ)
          true) = 0 :=
  ⟨((applied_callback_exactly_once_per_forward false false 7
      ⟨1/2, 0, 0, false, false, 1, false⟩).1 (by decide)).2,
   ((applied_callback_exactly_once_per_forward false true 7
      ⟨1/2, 0, 0, false, false, 1, false⟩).2 (by decide)).2⟩

/-- C4: the override flag is mutated only by the override-enable handler —
over any event sequence the final flag equals the last override-enable value
(initial if none), a control event leaves the state unchanged, the handler
unconditionally stores the received boolean, and a control command processed
right after the handler returns is routed against the new value; in particular
toggling false→true→false routes an immediately following command by false. -/
theorem override_flag_immediate_routing (vehicle_id : ℤ) (s : RelayState)
    (es : List (RelayEvent ℚ)) (b m : Bool) (ros : CarlaEgoVehicleControl ℚ) :
    (runRelay vehicle_id s es).1.vehicle_control_override =
      lastOverride s.vehicle_control_override es ∧
    (stepRelay vehicle_id s (RelayEvent.controlMsg ros m)).1 = s ∧
    (stepRelay vehicle_id s
        (RelayEvent.overrideMsg b : RelayEvent ℚ)).1.vehicle_control_override
      = b ∧
    (stepRelay vehicle_id
        (stepRelay vehicle_id s (RelayEvent.overrideMsg b : RelayEvent ℚ)).1
        (RelayEvent.controlMsg ros m)).2 =
      control_command_updated b vehicle_id ros m ∧
    (runRelay vehicle_id s
        [RelayEvent.overrideMsg false, RelayEvent.overrideMsg true,
         RelayEvent.overrideMsg false, RelayEvent.controlMsg ros m]).2 =
      control_command_updated false vehicle_id ros m := by
  refine ⟨runRelay_override_eq vehicle_id s es, rfl, rfl, rfl, ?_⟩
  simp [runRelay, stepRelay, control_command_override]

/-- C5: for every yaw, `get_quaternion_from_euler` at roll = 0 and pitch = 0
returns `(0, 0, sin (yaw / 2), cos (yaw / 2))`. -/
theorem quaternion_from_euler_pure_yaw (yaw : ℝ) :
    get_quaternion_from_euler Real.sin Real.cos 0 0 yaw =
      (0, 0, Real.sin (yaw / 2), Real.cos (yaw / 2)) := by
  simp [get_quaternion_from_euler]

/-- C6: with the identity world transform (hence identity inverse matrix), a
wheel whose simulator-reported position is `(x, y, z)` centimeters lands in
the descriptor at position `(x / 100, -y / 100, z / 100)` meters. -/
theorem wheel_position_identity_transform (pi : ℝ)
    (wheel : WheelPhysicsControl ℝ) :
    (wheelInfoFromPhysics pi identityMat4 wheel).position =
      ⟨wheel.position.x / 100, -(wheel.position.y / 100),
        wheel.position.z / 100⟩ := by
  simp [wheelInfoFromPhysics, identityMat4, matmul4, dot4]

/-- C7: per wheel, tire friction, damping rate, radius and both brake torques
are copied unchanged; the max steering angle is converted from degrees to
radians (multiplied by π / 180); and the position is the map-frame position
divided by 100, multiplied by the inverse world-transform matrix, with the Y
component negated after the transform. -/
theorem wheel_info_field_contract (inv_T : Mat4 ℝ)
    (wheel : WheelPhysicsControl ℝ) :
    (wheelInfoFromPhysics Real.pi inv_T wheel).tire_friction =
        wheel.tire_friction ∧
    (wheelInfoFromPhysics Real.pi inv_T wheel).damping_rate =
        wheel.damping_rate ∧
    (wheelInfoFromPhysics Real.pi inv_T wheel).radius = wheel.radius ∧
    (wheelInfoFromPhysics Real.pi inv_T wheel).max_brake_torque =
        wheel.max_brake_torque ∧
    (wheelInfoFromPhysics Real.pi inv_T wheel).max_handbrake_torque =
        wheel.max_handbrake_torque ∧
    (wheelInfoFromPhysics Real.pi inv_T wheel).max_steer_angle =
        wheel.max_steer_angle * Real.pi / 180 ∧
    (wheelInfoFromPhysics Real.pi inv_T wheel).position =
      { x := (matmul4 inv_T ⟨wheel.position.x / 100, wheel.position.y / 100,
                wheel.position.z / 100, 1⟩).a0,
        y := -(matmul4 inv_T ⟨wheel.position.x / 100, wheel.position.y / 100,
                wheel.position.z / 100, 1⟩).a1,
        z := (matmul4 inv_T ⟨wheel.position.x / 100, wheel.position.y / 100,
                wheel.position.z / 100, 1⟩).a2 } :=
  ⟨rfl, rfl, rfl, rfl, rfl, rfl, rfl⟩

/-- C8: the checksum field of the Canbus message is the constant 1 for every
vehicle state and every square-root implementation. -/
theorem canbus_checksum_constant (sqrt : ℚ → ℚ) (s : EgoSnapshot ℚ) :
    (mkCanbus sqrt s).checksum = 1 :=
  rfl

/-- C9: the velocity field of the status message is
`Real.sqrt (x² + y² + z²)` of the actor's velocity vector, hence
non-negative. -/
theorem status_velocity_is_speed_abs (s : EgoSnapshot ℝ) :
    (mkVehicleStatus Real.sqrt s).velocity =
      Real.sqrt (s.velocity.x ^ 2 + s.velocity.y ^ 2 + s.velocity.z ^ 2) ∧
    0 ≤ (mkVehicleStatus Real.sqrt s).velocity := by
  constructor
  · show Real.sqrt (get_vector_length_squared s.velocity) = _
    rw [get_vector_length_squared]
    ring_nf
  · exact Real.sqrt_nonneg _

/-- C10: the pose message copies the transform's position coordinates
verbatim (no scaling, no sign change), and its orientation equals the
converted ROS pose's orientation — the same value used for the status
message's orientation field. -/
theorem ego_location_pose_contract (sqrt : ℚ → ℚ) (s : EgoSnapshot ℚ) :
    (mkEgoLocation s).position.x = s.transform_location.x ∧
    (mkEgoLocation s).position.y = s.transform_location.y ∧
    (mkEgoLocation s).position.z = s.transform_location.z ∧
    (mkEgoLocation s).orientation = s.ros_pose.orientation ∧
    (mkVehicleStatus sqrt s).orientation = s.ros_pose.orientation :=
  ⟨rfl, rfl, rfl, rfl, rfl⟩

end EgoVehicleRelay
